import Mathlib

/-!
Verification of the pdf-print-tests compliance/remediation/comparison engine.

The definitions below are shallow embeddings of the TypeScript sources:
`scripts/validate-pdfs.ts`, `scripts/validate-tac.ts` (embedded in
`test-vivliostyle-bugs.ts`), `scripts/batch-process.ts` (with its bundled
`compare-pdfs.ts`), the three-backend comparison engine, and `limit-tac.ts`
(whose full source is bundled in `RENDERING-ISSUES.md`).  Numeric values the
scripts hold in JS doubles are modelled as rationals; external commands
(Ghostscript, ImageMagick, lcms2 tools) are modelled by their parsed results
or by explicit collaborator functions.
-/

namespace PdfPrint

/-! ## Measurement: validate-tac.ts and validate-pdfs.ts -/

/-- Per-page TAC classification, from validate-tac.ts. -/
inductive TACStatus
  | pass
  | warn
  | fail
deriving DecidableEq

/-- getTACStatus from validate-tac.ts:
`if (tac > 240) return "fail"; if (tac > 200) return "warn"; return "pass";` -/
def getTACStatus (tac : ℚ) : TACStatus :=
  if 240 < tac then .fail
  else if 200 < tac then .warn
  else .pass

/-- Numeric rank of a status, used to state monotonicity. -/
def statusRank : TACStatus → ℕ
  | .pass => 0
  | .warn => 1
  | .fail => 2

/-- One parsed line of Ghostscript inkcov output: the four channel fractions. -/
structure ChannelSample where
  c : ℚ
  m : ℚ
  y : ℚ
  k : ℚ
deriving DecidableEq

/-- Per-page ink record built by getInkCoverage in validate-pdfs.ts. -/
structure InkCoverage where
  page : ℕ
  cyan : ℚ
  magenta : ℚ
  yellow : ℚ
  black : ℚ
  tac : ℚ
deriving DecidableEq

/-- Body of the per-line loop of getInkCoverage: each channel fraction is
scaled by 100 and tac is the sum of the four scaled channels. -/
def mkInkCoverage (pageNum : ℕ) (s : ChannelSample) : InkCoverage :=
  { page := pageNum
    cyan := s.c * 100
    magenta := s.m * 100
    yellow := s.y * 100
    black := s.k * 100
    tac := s.c * 100 + s.m * 100 + s.y * 100 + s.k * 100 }

/-- getInkCoverage from validate-pdfs.ts over the parsed inkcov lines.
`none` models the catch branch (the gs command failed): the function logs a
warning and returns the empty coverage list.  Page numbers start at 1. -/
def getInkCoverage (parsed : Option (List ChannelSample)) : List InkCoverage :=
  match parsed with
  | none => []
  | some lines => lines.enum.map (fun pr => mkInkCoverage (pr.1 + 1) pr.2)

/-- The maxTac loop of validatePdf check 3: running maximum starting at 0. -/
def maxTacOf (cov : List InkCoverage) : ℚ :=
  cov.foldl (fun acc p => max acc p.tac) 0

/-- validatePdf check 3 (Max Ink Coverage): passed iff maxTac ≤ 240. -/
def tacCheckPassed (cov : List InkCoverage) : Bool :=
  maxTacOf cov ≤ 240

/-! ## Recommendations: getTACRecommendation in validate-tac.ts -/

/-- The three recommendation strings getTACRecommendation can emit. -/
inductive TACRec
  | pureBlack
  | reduceSaturation
  | convertProfile
deriving DecidableEq

/-- getTACRecommendation from validate-tac.ts.  Returns `none` when
tac ≤ 200 (early return) or when no recommendation fires (the joined string
is empty, hence falsy, hence `undefined`). -/
def getTACRecommendation (tac : ℚ) (s : ChannelSample) : Option (List TACRec) :=
  if tac ≤ 200 then none
  else
    let recs : List TACRec :=
      (if 80 < s.k ∧ (20 < s.c ∨ 20 < s.m ∨ 20 < s.y) then [.pureBlack] else []) ++
      (if 200 < s.c + s.m + s.y then [.reduceSaturation] else []) ++
      (if 240 < tac then [.convertProfile] else [])
    if recs.isEmpty then none else some recs

/-! ## measureTAC and the verification tolerance in limit-tac.ts -/

/-- JS Math.round for the nonnegative values occurring here. -/
def jsRound (x : ℚ) : ℤ :=
  ⌊x + 1 / 2⌋

/-- The `Math.round(x * 10) / 10` rounding measureTAC applies. -/
def roundTenth (x : ℚ) : ℚ :=
  (jsRound (x * 10) : ℚ) / 10

/-- measureTAC from limit-tac.ts: `none` models the catch branch (gs failed);
an empty parsed list models output with no parsable CMYK line; both return
maxTAC = 0 and avgTAC = 0.  Otherwise maxTAC is the max of the per-line TACs
(channel sum times 100) rounded to a tenth, avgTAC their mean. -/
def measureTAC (parsed : Option (List ChannelSample)) : ℚ × ℚ :=
  match parsed with
  | none => (0, 0)
  | some lines =>
    let tacs := lines.map (fun s => (s.c + s.m + s.y + s.k) * 100)
    match tacs with
    | [] => (0, 0)
    | t :: ts =>
      (roundTenth (ts.foldl max t),
       roundTenth ((tacs.foldl (· + ·) 0) / tacs.length))

/-- The post-remediation verification in limitTAC:
`if (afterTAC <= maxTAC + 1)` report success, else only a warning. -/
def verificationOk (afterTAC maxTAC : ℚ) : Bool :=
  afterTAC ≤ maxTAC + 1

/-! ## TAC-limiting decision per backend: processBatch step 3.5 in batch-process.ts -/

/-- The three rendering backends batch-process.ts drives. -/
inductive Backend
  | pagedjs
  | vivliostyle
  | weasyprint
deriving DecidableEq

/-- Whether processBatch step 3.5 invokes limitTAC on a backend's PDF/X file.
For PagedJS and Vivliostyle the call is guarded only by `existsSync` on the
PDF/X path; for WeasyPrint the code first runs validateTAC and skips limiting
when `wpTacCheck.maxTAC <= 240`, invoking limitTAC only in the else branch. -/
def remediationTriggered (b : Backend) (pdfxExists : Bool) (maxTAC : ℚ) : Bool :=
  match b with
  | .pagedjs => pdfxExists
  | .vivliostyle => pdfxExists
  | .weasyprint => pdfxExists && !(decide (maxTAC ≤ 240))

/-! ## Per-page remediation loop of limitTAC (limit-tac.ts) -/

/-- Steps 1–2 of the per-page loop: render the page to a raster, then apply
tificc with the device-link profile; the inner catch falls back to copying
the unmodified raster (`cp tiffFile tacFile`) when tificc fails. -/
def processPage {Page Raster : Type} (rasterize : Page → Raster)
    (remap : Raster → Option Raster) (p : Page) : Raster :=
  match remap (rasterize p) with
  | some remapped => remapped
  | none => rasterize p

/-- The page loop over pages 1..N in original order.  Fragment files are named
with the page number zero-padded to four digits, so the lexicographic sort
before pdfunite coincides with page order; the output list below is that
merged order. -/
def limitTACPages {Page Raster : Type} (rasterize : Page → Raster)
    (remap : Raster → Option Raster) (pages : List Page) : List Raster :=
  pages.map (processPage rasterize remap)

/-- Step 3 plus reassembly: each (possibly fallen-back) raster is wrapped into
a single-page fragment (img2pdf) and the fragments concatenated (pdfunite). -/
def remediatePages {Page Raster Frag : Type} (rasterize : Page → Raster)
    (remap : Raster → Option Raster) (wrap : Raster → Frag)
    (pages : List Page) : List Frag :=
  (limitTACPages rasterize remap pages).map wrap

/-! ## Profile artifact lifecycle: createTACProfile and the limitTAC run -/

/-- A profile artifact path `dir/cmyk-tac{ceiling}.icc`, as the pair of the
temp-directory identity and the ceiling. -/
abbrev ProfilePath := ℕ × ℚ

/-- createTACProfile from limit-tac.ts over a filesystem modelled as the list
of existing artifact paths: return the ceiling-keyed path unchanged when it
already exists, otherwise build it with linkicc.  Result: the path, the new
filesystem, and how many builds were performed (0 or 1). -/
def createTACProfile (fs : List ProfilePath) (dir : ℕ) (maxTAC : ℚ) :
    ProfilePath × List ProfilePath × ℕ :=
  let p : ProfilePath := (dir, maxTAC)
  if p ∈ fs then (p, fs, 0) else (p, p :: fs, 1)

/-- One limitTAC run: a fresh `Date.now()`-stamped temp directory `runId` is
created, createTACProfile is called once before the page loop, every page's
tificc call receives that same profile path, and the default cleanup deletes
the profile with the temp directory.  Result: the profile path used by each
page, the filesystem after cleanup, and the number of builds in this run. -/
def limitTACRun (fs : List ProfilePath) (runId : ℕ) (maxTAC : ℚ)
    (numPages : ℕ) : List ProfilePath × List ProfilePath × ℕ :=
  let r := createTACProfile fs runId maxTAC
  (List.replicate numPages r.1, r.2.1.erase r.1, r.2.2)

/-- Two sequential limitTAC runs in one process (distinct timestamped temp
directories), returning the total number of profile builds performed. -/
def twoRunBuilds (runId₁ runId₂ : ℕ) (maxTAC : ℚ) (n : ℕ) : ℕ :=
  let a := limitTACRun [] runId₁ maxTAC n
  let b := limitTACRun a.2.1 runId₂ maxTAC n
  a.2.2 + b.2.2

/-! ## Dependency gate of limitTAC: checkDependencies -/

/-- Availability of the five external tools checkDependencies probes. -/
structure ToolEnv where
  gs : Bool
  tificc : Bool
  linkicc : Bool
  img2pdf : Bool
  pdfunite : Bool
deriving DecidableEq

/-- The five collaborator tools, in the order checkDependencies probes them. -/
inductive Tool
  | ghostscript
  | tificcLcms
  | linkiccLcms
  | img2pdfPip
  | pdfunitePoppler
deriving DecidableEq

/-- Which environment flag a tool corresponds to. -/
def toolAvailable (env : ToolEnv) : Tool → Bool
  | .ghostscript => env.gs
  | .tificcLcms => env.tificc
  | .linkiccLcms => env.linkicc
  | .img2pdfPip => env.img2pdf
  | .pdfunitePoppler => env.pdfunite

/-- The `missing` list checkDependencies accumulates: one entry per
unavailable tool, every probe executed (no early exit). -/
def missingOf (env : ToolEnv) : List Tool :=
  (if env.gs then [] else [.ghostscript]) ++
  (if env.tificc then [] else [.tificcLcms]) ++
  (if env.linkicc then [] else [.linkiccLcms]) ++
  (if env.img2pdf then [] else [.img2pdfPip]) ++
  (if env.pdfunite then [] else [.pdfunitePoppler])

/-- checkDependencies result: `ok` iff the missing list is empty. -/
def checkDependencies (env : ToolEnv) : Bool × List Tool :=
  ((missingOf env).isEmpty, missingOf env)

/-- Outcome of the dependency gate at the top of limitTAC. -/
inductive GateResult
  | proceed
  | failUnavailable (missing : List Tool)
deriving DecidableEq

/-- The front gate of limitTAC: when deps.ok is false it returns immediately
with success false and an error naming every entry of deps.missing; no page
is processed and no output file is written. -/
def limitTACGate (env : ToolEnv) : GateResult :=
  if (checkDependencies env).1 then .proceed
  else .failUnavailable (checkDependencies env).2

/-- processBatch installs a remediated document over the original only when
limitTAC reported success (`copyFileSync` inside `if (tacLimitResult.success)`);
otherwise the original print-intent document is left as it was. -/
def installRemediated {Doc : Type} (original : Doc) (success : Bool)
    (remediated : Doc) : Doc :=
  if success then remediated else original

/-! ## Comparison rows: compareFeatures in the three-backend comparison engine -/

/-- Verdict of one feature row. -/
inductive RowVerdict
  | same
  | different
  | pagedjsBetter
  | vivliostyleBetter
  | weasyprintBetter
deriving DecidableEq

/-- The Max Ink (TAC) row of compareFeatures (minTac inlined as
`min pj (min vs wp)`): when all three backends are 240-compliant, a backend
wins only when it attains the minimum and is more than 5 percentage points
below both others, and the row is `same` only when PagedJS is within 5 points
of both others; when some backend is non-compliant, the sole compliant
backend (if any) wins; otherwise the row is `different`. -/
def tacRowVerdict (pj vs wp : ℚ) : RowVerdict :=
  if pj ≤ 240 ∧ vs ≤ 240 ∧ wp ≤ 240 then
    if wp = min pj (min vs wp) ∧ wp < pj - 5 ∧ wp < vs - 5 then .weasyprintBetter
    else if pj = min pj (min vs wp) ∧ pj < vs - 5 ∧ pj < wp - 5 then .pagedjsBetter
    else if vs = min pj (min vs wp) ∧ vs < pj - 5 ∧ vs < wp - 5 then .vivliostyleBetter
    else if |pj - vs| < 5 ∧ |pj - wp| < 5 then .same
    else .different
  else
    if wp ≤ 240 ∧ ¬ pj ≤ 240 ∧ ¬ vs ≤ 240 then .weasyprintBetter
    else if pj ≤ 240 ∧ ¬ vs ≤ 240 ∧ ¬ wp ≤ 240 then .pagedjsBetter
    else if vs ≤ 240 ∧ ¬ pj ≤ 240 ∧ ¬ wp ≤ 240 then .vivliostyleBetter
    else .different

/-- The comparison body of the File Size row of compareFeatures over the
KB-scaled local values pjSize, vsSize, wpSize: a backend wins only when it
attains the minimum and is below 90 percent of both others
(`wpSize < pjSize * 0.9` etc.); the row is `same` only when PagedJS is
within 10 percent relative difference of both others; otherwise `different`. -/
def sizeRowVerdictKB (pj vs wp : ℚ) : RowVerdict :=
  if wp = min pj (min vs wp) ∧ wp < pj * (9 / 10) ∧ wp < vs * (9 / 10) then .weasyprintBetter
  else if pj = min pj (min vs wp) ∧ pj < vs * (9 / 10) ∧ pj < wp * (9 / 10) then .pagedjsBetter
  else if vs = min pj (min vs wp) ∧ vs < pj * (9 / 10) ∧ vs < wp * (9 / 10) then .vivliostyleBetter
  else if |pj - vs| / max pj vs < 1 / 10 ∧ |pj - wp| / max pj wp < 1 / 10 then .same
  else .different

/-- The File Size row: compareFeatures divides each byte size by 1024 into
the KB locals before comparing. -/
def sizeRowVerdict (pjBytes vsBytes wpBytes : ℚ) : RowVerdict :=
  sizeRowVerdictKB (pjBytes / 1024) (vsBytes / 1024) (wpBytes / 1024)

/-! ## Scoring and winner: calculateSummary -/

/-- What calculateSummary reads off one backend's ValidationResult: the
overall `valid` flag and how many compliance checks passed. -/
structure ValidationSummary where
  valid : Bool
  passedChecks : ℕ
deriving DecidableEq

/-- The raw running score: 5 for overall validity plus 0.5 per passed check;
`none` (no result) contributes nothing. -/
def rawScore (r : Option ValidationSummary) : ℚ :=
  match r with
  | none => 0
  | some v => (if v.valid then 5 else 0) + (v.passedChecks : ℚ) / 2

/-- The final per-backend score: `Math.min(10, Math.round(score))`. -/
def score (r : Option ValidationSummary) : ℤ :=
  min 10 (jsRound (rawScore r))

/-- The winner field of ComparisonSummary. -/
inductive SummaryWinner
  | pagedjs
  | vivliostyle
  | weasyprint
  | tie
  | inconclusive
deriving DecidableEq

/-- The `winners` array calculateSummary builds from the three final scores:
each backend whose score equals the maximum, in the order pagedjs,
vivliostyle, weasyprint. -/
def winnersList (s1 s2 s3 : ℤ) : List SummaryWinner :=
  (if s1 = max s1 (max s2 s3) then [.pagedjs] else []) ++
  (if s2 = max s1 (max s2 s3) then [.vivliostyle] else []) ++
  (if s3 = max s1 (max s2 s3) then [.weasyprint] else [])

/-- `if (winners.length > 1) tie else winners[0]`.  The winners list is never
empty (the maximum of the three scores is attained), so the headD default is
never read. -/
def pickWinner (s1 s2 s3 : ℤ) : SummaryWinner :=
  if 1 < (winnersList s1 s2 s3).length then .tie
  else (winnersList s1 s2 s3).headD .tie

/-- calculateSummary's winner: inconclusive when no backend has a result,
otherwise decided from the three scores by pickWinner. -/
def calculateWinner (pj vs wp : Option ValidationSummary) : SummaryWinner :=
  if pj = none ∧ vs = none ∧ wp = none then .inconclusive
  else pickWinner (score pj) (score vs) (score wp)

/-! ## Visual comparison: compareVisually -/

/-- One common page's differ outcome: `some n` is the ImageMagick AE pixel
count, `none` the catch branch (compare crashed, e.g. dimension mismatch). -/
def pageDiffers (d : Option ℕ) : Bool :=
  match d with
  | some n => decide (100 < n)
  | none => true

/-- compareVisually: both PDFs are rasterized, `pageCount` is the minimum of
the two page lists' lengths, and only indices below it are compared; a common
page counts as differing when its pixel difference exceeds 100 or the differ
fails.  Returns (pagesCompared, differencesFound). -/
def compareVisuallyCount (diff : ℕ → Option ℕ) (n1 n2 : ℕ) : ℕ × ℕ :=
  (min n1 n2,
   ((List.range (min n1 n2)).filter (fun i => pageDiffers (diff i))).length)

/-! ## Helper lemmas -/

theorem getTACStatus_pass_iff (t : ℚ) : getTACStatus t = .pass ↔ t ≤ 200 := by
  unfold getTACStatus
  split_ifs with h1 h2
  · simp
    linarith
  · simp
    linarith
  · simp
    linarith

theorem getTACStatus_warn_iff (t : ℚ) :
    getTACStatus t = .warn ↔ 200 < t ∧ t ≤ 240 := by
  unfold getTACStatus
  split_ifs with h1 h2
  · simp
    rintro -
    linarith
  · simp
    exact ⟨h2, by linarith⟩
  · simp
    rintro h
    exact absurd h h2

theorem getTACStatus_fail_iff (t : ℚ) : getTACStatus t = .fail ↔ 240 < t := by
  unfold getTACStatus
  split_ifs with h1 h2
  · simpa using h1
  · simp
    linarith
  · simp
    linarith

theorem statusRank_mono (t₁ t₂ : ℚ) (h : t₁ ≤ t₂) :
    statusRank (getTACStatus t₁) ≤ statusRank (getTACStatus t₂) := by
  unfold getTACStatus
  split_ifs <;> simp [statusRank] <;> linarith

theorem jsRound_int_add_half (b : ℤ) (k : ℕ) :
    jsRound ((b : ℚ) + (k : ℚ) / 2) = b + ((k : ℤ) + 1) / 2 := by
  set q : ℤ := ((k : ℤ) + 1) / 2 with hq
  have h1 : 2 * q ≤ (k : ℤ) + 1 := by omega
  have h2 : (k : ℤ) + 1 ≤ 2 * q + 1 := by omega
  unfold jsRound
  rw [Int.floor_eq_iff]
  constructor
  · push_cast
    have h1q : (2 * (q : ℚ)) ≤ (k : ℚ) + 1 := by exact_mod_cast h1
    linarith
  · push_cast
    have h2q : ((k : ℚ) + 1) ≤ 2 * (q : ℚ) + 1 := by exact_mod_cast h2
    linarith

theorem score_closed_form (v : ValidationSummary) :
    score (some v) =
      min 10 ((if v.valid then 5 else 0) + ((v.passedChecks : ℤ) + 1) / 2) := by
  rcases v with ⟨vb, k⟩
  cases vb
  · have h : rawScore (some ⟨false, k⟩) = ((0 : ℤ) : ℚ) + (k : ℚ) / 2 := by
      simp [rawScore]
    rw [score, h, jsRound_int_add_half]
    norm_num
  · have h : rawScore (some ⟨true, k⟩) = ((5 : ℤ) : ℚ) + (k : ℚ) / 2 := by
      simp [rawScore]
    rw [score, h, jsRound_int_add_half]
    norm_num

theorem pickWinner_ne_inconclusive (s1 s2 s3 : ℤ) :
    pickWinner s1 s2 s3 ≠ .inconclusive := by
  unfold pickWinner winnersList
  split_ifs <;> simp

theorem pickWinner_eq_pagedjs (s1 s2 s3 : ℤ)
    (h : pickWinner s1 s2 s3 = .pagedjs) : s2 < s1 ∧ s3 < s1 := by
  have h2 : s2 ≤ max s1 (max s2 s3) := le_max_of_le_right (le_max_left _ _)
  have h3 : s3 ≤ max s1 (max s2 s3) := le_max_of_le_right (le_max_right _ _)
  unfold pickWinner winnersList at h
  generalize hM : max s1 (max s2 s3) = M at h h2 h3
  split_ifs at h <;> simp_all <;> omega

theorem pickWinner_tie_two_equal (s1 s2 s3 : ℤ)
    (h : pickWinner s1 s2 s3 = .tie) : s1 = s2 ∨ s1 = s3 ∨ s2 = s3 := by
  have h1 : s1 ≤ max s1 (max s2 s3) := le_max_left _ _
  have h2 : s2 ≤ max s1 (max s2 s3) := le_max_of_le_right (le_max_left _ _)
  have h3 : s3 ≤ max s1 (max s2 s3) := le_max_of_le_right (le_max_right _ _)
  have hatt : s1 = max s1 (max s2 s3) ∨ s2 = max s1 (max s2 s3) ∨
      s3 = max s1 (max s2 s3) := by
    rcases max_cases s2 s3 with ⟨ha, -⟩ | ⟨ha, -⟩ <;>
      rcases max_cases s1 (max s2 s3) with ⟨hb, -⟩ | ⟨hb, -⟩ <;> omega
  unfold pickWinner winnersList at h
  generalize hM : max s1 (max s2 s3) = M at h h1 h2 h3 hatt
  split_ifs at h <;> simp_all <;> omega

theorem pickWinner_two_max_tie (s1 s2 s3 : ℤ)
    (hsh : (s1 = s2 ∧ s3 ≤ s1) ∨ (s1 = s3 ∧ s2 ≤ s1) ∨ (s2 = s3 ∧ s1 ≤ s2)) :
    pickWinner s1 s2 s3 = .tie := by
  have h1 : s1 ≤ max s1 (max s2 s3) := le_max_left _ _
  have h2 : s2 ≤ max s1 (max s2 s3) := le_max_of_le_right (le_max_left _ _)
  have h3 : s3 ≤ max s1 (max s2 s3) := le_max_of_le_right (le_max_right _ _)
  have hatt : s1 = max s1 (max s2 s3) ∨ s2 = max s1 (max s2 s3) ∨
      s3 = max s1 (max s2 s3) := by
    rcases max_cases s2 s3 with ⟨ha, -⟩ | ⟨ha, -⟩ <;>
      rcases max_cases s1 (max s2 s3) with ⟨hb, -⟩ | ⟨hb, -⟩ <;> omega
  unfold pickWinner winnersList
  generalize hM : max s1 (max s2 s3) = M at h1 h2 h3 hatt ⊢
  split_ifs <;> simp_all <;> omega

/-! ## Claim theorems -/

/-- Claim C2: for every page whose four channel fractions are each in [0,1],
TAC equals the sum of the four channel percentages and lies in [0,400], and
the page is classified by the monotonic step function of TAC with thresholds
200 (inclusive pass) and 240 (inclusive warn, exclusive fail). -/
theorem tac_sum_range_and_step (s : ChannelSample) (n : ℕ)
    (hc : 0 ≤ s.c ∧ s.c ≤ 1) (hm : 0 ≤ s.m ∧ s.m ≤ 1)
    (hy : 0 ≤ s.y ∧ s.y ≤ 1) (hk : 0 ≤ s.k ∧ s.k ≤ 1) :
    (mkInkCoverage n s).tac =
      (mkInkCoverage n s).cyan + (mkInkCoverage n s).magenta +
      (mkInkCoverage n s).yellow + (mkInkCoverage n s).black
    ∧ 0 ≤ (mkInkCoverage n s).tac
    ∧ (mkInkCoverage n s).tac ≤ 400
    ∧ (getTACStatus (mkInkCoverage n s).tac = .pass ↔ (mkInkCoverage n s).tac ≤ 200)
    ∧ (getTACStatus (mkInkCoverage n s).tac = .warn ↔
        200 < (mkInkCoverage n s).tac ∧ (mkInkCoverage n s).tac ≤ 240)
    ∧ (getTACStatus (mkInkCoverage n s).tac = .fail ↔ 240 < (mkInkCoverage n s).tac)
    ∧ ∀ t₁ t₂ : ℚ, t₁ ≤ t₂ →
        statusRank (getTACStatus t₁) ≤ statusRank (getTACStatus t₂) := by
  obtain ⟨hc0, hc1⟩ := hc
  obtain ⟨hm0, hm1⟩ := hm
  obtain ⟨hy0, hy1⟩ := hy
  obtain ⟨hk0, hk1⟩ := hk
  refine ⟨by simp [mkInkCoverage], ?_, ?_, getTACStatus_pass_iff _,
    getTACStatus_warn_iff _, getTACStatus_fail_iff _, statusRank_mono⟩
  · simp only [mkInkCoverage]
    linarith
  · simp only [mkInkCoverage]
    linarith

/-- Witness for C2 at channel fractions (1/2, 1/2, 1/2, 1/2). -/
theorem tac_sum_range_and_step_witness :
    ((0:ℚ) ≤ 1/2 ∧ (1/2:ℚ) ≤ 1) ∧
    (0 ≤ (mkInkCoverage 1 ⟨1/2, 1/2, 1/2, 1/2⟩).tac ∧
      (mkInkCoverage 1 ⟨1/2, 1/2, 1/2, 1/2⟩).tac ≤ 400) :=
  ⟨⟨by norm_num, by norm_num⟩,
    ⟨(tac_sum_range_and_step ⟨1/2, 1/2, 1/2, 1/2⟩ 1
        ⟨by norm_num, by norm_num⟩ ⟨by norm_num, by norm_num⟩
        ⟨by norm_num, by norm_num⟩ ⟨by norm_num, by norm_num⟩).2.1,
      (tac_sum_range_and_step ⟨1/2, 1/2, 1/2, 1/2⟩ 1
        ⟨by norm_num, by norm_num⟩ ⟨by norm_num, by norm_num⟩
        ⟨by norm_num, by norm_num⟩ ⟨by norm_num, by norm_num⟩).2.2.1⟩⟩

/-- Claim C1 counterexample: for the PagedJS backend, processBatch step 3.5
invokes limitTAC whenever the PDF/X file exists, with no TAC measurement at
all, so a document with maxTAC exactly 240 is still remediated — though the
claim requires remediation for no backend at the inclusive 240 boundary. -/
theorem remediation_not_gated_for_pagedjs :
    remediationTriggered .pagedjs true 240 = true ∧ ¬ ((240 : ℚ) > 240) :=
  ⟨rfl, by norm_num⟩

/-- Claim C1 amended: only the WeasyPrint backend's remediation is gated on
the measured maxTAC, triggering iff the PDF/X file exists and maxTAC
strictly exceeds 240 (so maxTAC = 240 does not trigger); PagedJS and
Vivliostyle print-intent documents are remediated unconditionally whenever
the file exists. -/
theorem remediation_trigger_per_backend (e : Bool) (t : ℚ) :
    (remediationTriggered .weasyprint e t = true ↔ e = true ∧ 240 < t)
    ∧ remediationTriggered .pagedjs e t = e
    ∧ remediationTriggered .vivliostyle e t = e := by
  refine ⟨?_, rfl, rfl⟩
  cases e <;> simp [remediationTriggered, not_le]

/-- Claim C3: if the color remapper fails for page k only while rasterize,
wrap and merge succeed for every page, the reassembled output still has one
fragment per input page in original order, page k wrapping the unmodified
rasterization, every other page wrapping its remapped raster, and the
whole-document run does not abort. -/
theorem per_page_fallback {Page Raster Frag : Type}
    (rasterize : Page → Raster) (remap : Raster → Option Raster)
    (wrap : Raster → Frag) (pages : List Page) (k : Fin pages.length)
    (hfail : remap (rasterize (pages.get k)) = none) :
    (remediatePages rasterize remap wrap pages).length = pages.length
    ∧ (remediatePages rasterize remap wrap pages)[(k : ℕ)]? =
        some (wrap (rasterize (pages.get k)))
    ∧ ∀ j : Fin pages.length, (j : ℕ) ≠ (k : ℕ) →
        ∀ r, remap (rasterize (pages.get j)) = some r →
          (remediatePages rasterize remap wrap pages)[(j : ℕ)]? = some (wrap r) := by
  refine ⟨by simp [remediatePages, limitTACPages], ?_, ?_⟩
  · simp [remediatePages, limitTACPages, processPage,
      List.getElem?_eq_getElem k.isLt]
    simp only [List.get_eq_getElem] at hfail
    rw [hfail]
  · intro j hj r hr
    simp only [List.get_eq_getElem] at hr
    simp [remediatePages, limitTACPages, processPage,
      List.getElem?_eq_getElem j.isLt]
    rw [hr]

/-- Witness for C3: pages [1, 2, 3] rasterized by scaling with 10, remapper
failing exactly on raster 20 (page 2) and adding 1 elsewhere. -/
theorem per_page_fallback_witness :
    ((fun r : ℕ => if r = 20 then none else some (r + 1))
        ((fun p : ℕ => p * 10) (([1, 2, 3] : List ℕ).get ⟨1, by decide⟩)) = none)
    ∧ (remediatePages (fun p : ℕ => p * 10)
        (fun r => if r = 20 then none else some (r + 1))
        (fun r => r) [1, 2, 3]).length = 3
    ∧ (remediatePages (fun p : ℕ => p * 10)
        (fun r => if r = 20 then none else some (r + 1))
        (fun r => r) [1, 2, 3])[(1 : ℕ)]? = some 20 := by
  have h := per_page_fallback (fun p : ℕ => p * 10)
    (fun r => if r = 20 then none else some (r + 1)) (fun r => r)
    [1, 2, 3] ⟨1, by decide⟩ (by decide)
  exact ⟨by decide, h.1, by simpa using h.2.1⟩

/-- Claim C4 counterexample: two sequential limitTAC runs in one process at
the same ceiling 240 build the device-link artifact twice, because each run
creates it inside a fresh timestamped temp directory and deletes it at
cleanup — though the claim requires at most one build per ceiling value per
process. -/
theorem profile_rebuilt_across_runs :
    twoRunBuilds 0 1 240 3 = 2 ∧ ¬ (twoRunBuilds 0 1 240 3 ≤ 1) := by
  constructor <;> decide

/-- Claim C4 amended: within a single remediation run the ceiling-keyed
artifact is built exactly once (lazily, in the run's fresh temp directory)
and that same artifact is used for every page; distinct ceilings give
distinct artifact paths; but cleanup removes the artifact, so nothing is
shared with later runs in the same process. -/
theorem profile_built_once_within_run (fs : List ProfilePath) (runId : ℕ)
    (t₁ t₂ : ℚ) (n : ℕ) (hfresh : ((runId, t₁) : ProfilePath) ∉ fs) :
    (limitTACRun fs runId t₁ n).2.2 = 1
    ∧ (∀ p ∈ (limitTACRun fs runId t₁ n).1, p = (runId, t₁))
    ∧ (limitTACRun fs runId t₁ n).2.1 = fs
    ∧ (t₁ ≠ t₂ → ((runId, t₁) : ProfilePath) ≠ (runId, t₂)) := by
  refine ⟨?_, ?_, ?_, ?_⟩
  · simp [limitTACRun, createTACProfile, hfresh]
  · intro p hp
    simp [limitTACRun, createTACProfile, hfresh, List.mem_replicate] at hp
    exact hp.2
  · simp [limitTACRun, createTACProfile, hfresh]
  · intro hne heq
    exact hne (congrArg Prod.snd heq)

/-- Witness for C4's amended theorem: an empty filesystem, run id 0,
ceiling 240, two pages. -/
theorem profile_built_once_within_run_witness :
    (((0, 240) : ProfilePath) ∉ ([] : List ProfilePath))
    ∧ (limitTACRun [] 0 240 2).2.2 = 1
    ∧ (limitTACRun [] 0 240 2).2.1 = [] := by
  have h := profile_built_once_within_run [] 0 240 260 2 (by simp)
  exact ⟨by simp, h.1, h.2.2.1⟩

/-- Claim C5 counterexample: with file sizes 100 KB, 107 KB, 107 KB the two
distinct values differ by more than 5 percent relative tolerance, yet the
File Size row is reported `same` — the code's tolerance is 10 percent, not
the claimed 5 percent, so the strictly lower backend does not win. -/
theorem size_tolerance_counterexample :
    sizeRowVerdict 102400 109568 109568 = .same
    ∧ ¬ (|(102400 : ℚ) / 1024 - 109568 / 1024| /
          max ((102400 : ℚ) / 1024) (109568 / 1024) < 1 / 20) := by
  constructor
  · have h1 : ((102400 : ℚ) / 1024) = 100 := by norm_num
    have h2 : ((109568 : ℚ) / 1024) = 107 := by norm_num
    rw [sizeRowVerdict, h1, h2, sizeRowVerdictKB]
    norm_num
  · rw [show |(102400 : ℚ) / 1024 - 109568 / 1024| = 7 by
      rw [abs_of_nonpos (by norm_num)]; norm_num]
    norm_num

/-- Claim C5 amended: a TAC row is `same` only when all three backends are
240-compliant and PagedJS is within 5 percentage points of both others; a
File Size row is `same` only when PagedJS is within 10 percent (not 5)
relative difference of both others; and a backend is reported better on
either row only when its value is strictly lower than both other backends'
values (beyond-tolerance differences may still yield `different`). -/
theorem row_verdict_sound (pj vs wp : ℚ)
    (hpj : 0 ≤ pj) (hvs : 0 ≤ vs) (hwp : 0 ≤ wp) :
    (tacRowVerdict pj vs wp = .same →
      |pj - vs| < 5 ∧ |pj - wp| < 5 ∧ pj ≤ 240 ∧ vs ≤ 240 ∧ wp ≤ 240)
    ∧ (tacRowVerdict pj vs wp = .pagedjsBetter → pj < vs ∧ pj < wp)
    ∧ (tacRowVerdict pj vs wp = .vivliostyleBetter → vs < pj ∧ vs < wp)
    ∧ (tacRowVerdict pj vs wp = .weasyprintBetter → wp < pj ∧ wp < vs)
    ∧ (sizeRowVerdict pj vs wp = .same →
        |pj / 1024 - vs / 1024| / max (pj / 1024) (vs / 1024) < 1 / 10 ∧
        |pj / 1024 - wp / 1024| / max (pj / 1024) (wp / 1024) < 1 / 10)
    ∧ (sizeRowVerdict pj vs wp = .pagedjsBetter → pj < vs ∧ pj < wp)
    ∧ (sizeRowVerdict pj vs wp = .vivliostyleBetter → vs < pj ∧ vs < wp)
    ∧ (sizeRowVerdict pj vs wp = .weasyprintBetter → wp < pj ∧ wp < vs) := by
  refine ⟨?_, ?_, ?_, ?_, ?_, ?_, ?_, ?_⟩
  · intro h
    unfold tacRowVerdict at h
    split_ifs at h with c1 c2 c3 c4 c5 c6 c7 c8
    exact ⟨c5.1, c5.2, c1.1, c1.2.1, c1.2.2⟩
  · intro h
    unfold tacRowVerdict at h
    split_ifs at h with c1 c2 c3 c4 c5 c6 c7 c8
    · exact ⟨by linarith [c3.2.1], by linarith [c3.2.2]⟩
    · exact ⟨by linarith [c7.1, not_le.mp c7.2.1], by linarith [c7.1, not_le.mp c7.2.2]⟩
  · intro h
    unfold tacRowVerdict at h
    split_ifs at h with c1 c2 c3 c4 c5 c6 c7 c8
    · exact ⟨by linarith [c4.2.1], by linarith [c4.2.2]⟩
    · exact ⟨by linarith [c8.1, not_le.mp c8.2.1], by linarith [c8.1, not_le.mp c8.2.2]⟩
  · intro h
    unfold tacRowVerdict at h
    split_ifs at h with c1 c2 c3 c4 c5 c6 c7 c8
    · exact ⟨by linarith [c2.2.1], by linarith [c2.2.2]⟩
    · exact ⟨by linarith [c6.1, not_le.mp c6.2.1], by linarith [c6.1, not_le.mp c6.2.2]⟩
  · intro h
    unfold sizeRowVerdict sizeRowVerdictKB at h
    split_ifs at h with c1 c2 c3 c4
    exact ⟨c4.1, c4.2⟩
  · intro h
    unfold sizeRowVerdict sizeRowVerdictKB at h
    split_ifs at h with c1 c2 c3 c4
    constructor
    · nlinarith [c2.2.1, hvs]
    · nlinarith [c2.2.2, hwp]
  · intro h
    unfold sizeRowVerdict sizeRowVerdictKB at h
    split_ifs at h with c1 c2 c3 c4
    constructor
    · nlinarith [c3.2.1, hpj]
    · nlinarith [c3.2.2, hwp]
  · intro h
    unfold sizeRowVerdict sizeRowVerdictKB at h
    split_ifs at h with c1 c2 c3 c4
    constructor
    · nlinarith [c1.2.1, hpj]
    · nlinarith [c1.2.2, hvs]

/-- Witness for C5's amended theorem at the all-equal point (100, 100, 100). -/
theorem row_verdict_sound_witness :
    ((0 : ℚ) ≤ 100)
    ∧ (sizeRowVerdict 100 100 100 = .pagedjsBetter →
        (100 : ℚ) < 100 ∧ (100 : ℚ) < 100) :=
  ⟨by norm_num,
    (row_verdict_sound 100 100 100 (by norm_num) (by norm_num)
      (by norm_num)).2.2.2.2.2.1⟩

/-- Claim C6 counterexample: a backend with a valid result and exactly one
passed check scores 6, not the 5.5 the claimed formula
min(10, 5 + 0.5 per check) gives — calculateSummary rounds the raw score
with Math.round before capping. -/
theorem score_rounding_counterexample :
    score (some ⟨true, 1⟩) = 6
    ∧ min (10 : ℚ) (5 + (1 : ℚ) / 2) = 11 / 2
    ∧ ((6 : ℚ) ≠ 11 / 2) := by
  refine ⟨?_, ?_, by norm_num⟩
  · have h : rawScore (some ⟨true, 1⟩) = 11 / 2 := by norm_num [rawScore]
    rw [score, h]
    norm_num [jsRound, min_def]
  · norm_num [min_def]

/-- Claim C6 amended: each backend's score is 5 for overall validity plus
0.5 per passed sub-check, rounded to the nearest integer (halves up) and
capped at 10; the verdict is inconclusive exactly when no backend has a
result; a single backend wins only with a strictly maximal score; and when
two or more backends share the maximal score the verdict is tie. -/
theorem summary_score_and_winner (v : ValidationSummary)
    (pj vs wp : Option ValidationSummary) :
    score (some v) =
      min 10 ((if v.valid then 5 else 0) + ((v.passedChecks : ℤ) + 1) / 2)
    ∧ (calculateWinner pj vs wp = .inconclusive ↔
        pj = none ∧ vs = none ∧ wp = none)
    ∧ (calculateWinner pj vs wp = .pagedjs →
        score vs < score pj ∧ score wp < score pj)
    ∧ (calculateWinner pj vs wp = .tie →
        score pj = score vs ∨ score pj = score wp ∨ score vs = score wp)
    ∧ (¬ (pj = none ∧ vs = none ∧ wp = none) →
        ((score pj = score vs ∧ score wp ≤ score pj) ∨
         (score pj = score wp ∧ score vs ≤ score pj) ∨
         (score vs = score wp ∧ score pj ≤ score vs)) →
        calculateWinner pj vs wp = .tie) := by
  refine ⟨score_closed_form v, ?_, ?_, ?_, ?_⟩
  · constructor
    · intro h
      by_contra hall
      unfold calculateWinner at h
      rw [if_neg hall] at h
      exact pickWinner_ne_inconclusive _ _ _ h
    · intro h
      unfold calculateWinner
      rw [if_pos h]
  · intro h
    unfold calculateWinner at h
    split_ifs at h with hall
    exact pickWinner_eq_pagedjs _ _ _ h
  · intro h
    unfold calculateWinner at h
    split_ifs at h with hall
    exact pickWinner_tie_two_equal _ _ _ h
  · intro hall hsh
    unfold calculateWinner
    rw [if_neg hall]
    exact pickWinner_two_max_tie _ _ _ hsh

/-- Claim C7: when any required collaborator tool is missing, limitTAC fails
up front with one aggregated error listing exactly the missing tools (every
missing one named, nothing else), no output is produced by the gate, and
processBatch leaves the original print-intent document untouched on a
non-successful limitTAC result. -/
theorem missing_tools_aggregated (env : ToolEnv)
    (h : (missingOf env).isEmpty = false) :
    limitTACGate env = .failUnavailable (missingOf env)
    ∧ (∀ t : Tool, t ∈ missingOf env ↔ toolAvailable env t = false)
    ∧ (∀ (Doc : Type) (original remediated : Doc),
        installRemediated original false remediated = original) := by
  obtain ⟨g, tc, lc, ip, pu⟩ := env
  refine ⟨?_, ?_, fun Doc o r => rfl⟩
  · revert h
    cases g <;> cases tc <;> cases lc <;> cases ip <;> cases pu <;> decide
  · intro t
    cases t <;> cases g <;> cases tc <;> cases lc <;> cases ip <;> cases pu <;> decide

/-- Witness for C7: ghostscript and img2pdf missing, the rest available;
the aggregated error names both. -/
theorem missing_tools_aggregated_witness :
    (missingOf ⟨false, true, true, false, true⟩).isEmpty = false
    ∧ limitTACGate ⟨false, true, true, false, true⟩ =
        .failUnavailable [.ghostscript, .img2pdfPip] := by
  have h := missing_tools_aggregated ⟨false, true, true, false, true⟩ (by decide)
  refine ⟨by decide, ?_⟩
  rw [h.1]
  decide

/-- Claim C8 counterexample: with 2 pages on one side and 1 on the other and
identical common pages, compareVisually reports pagesCompared = 1 and zero
differences — the page present in only one output is ignored entirely, not
counted as differing as the claim requires. -/
theorem unmatched_pages_not_counted :
    compareVisuallyCount (fun _ => some 0) 2 1 = (1, 0)
    ∧ ¬ 1 ≤ (compareVisuallyCount (fun _ => some 0) 2 1).2 := by
  constructor <;> decide

/-- Claim C8 amended: only the first min(N1, N2) page indices are compared;
the result never depends on pages beyond the shorter output and the
difference count never exceeds the common page count; a common page counts
as differing when its pixel difference exceeds 100 or the differ fails. -/
theorem visual_compare_common_prefix (diff diffB : ℕ → Option ℕ) (n1 n2 : ℕ)
    (hagree : ∀ i < min n1 n2, diff i = diffB i) :
    (compareVisuallyCount diff n1 n2).1 = min n1 n2
    ∧ compareVisuallyCount diff n1 n2 = compareVisuallyCount diffB n1 n2
    ∧ (compareVisuallyCount diff n1 n2).2 ≤ min n1 n2
    ∧ (∀ i, i < min n1 n2 → diff i = none →
        1 ≤ (compareVisuallyCount diff n1 n2).2) := by
  have hfilter : (List.range (min n1 n2)).filter (fun i => pageDiffers (diff i)) =
      (List.range (min n1 n2)).filter (fun i => pageDiffers (diffB i)) := by
    apply List.filter_congr
    intro i hi
    rw [hagree i (List.mem_range.mp hi)]
  refine ⟨rfl, ?_, ?_, ?_⟩
  · unfold compareVisuallyCount
    rw [hfilter]
  · calc ((List.range (min n1 n2)).filter (fun i => pageDiffers (diff i))).length
        ≤ (List.range (min n1 n2)).length := List.length_filter_le _ _
      _ = min n1 n2 := List.length_range _
  · intro i hi hnone
    have hmem : i ∈ (List.range (min n1 n2)).filter (fun j => pageDiffers (diff j)) := by
      rw [List.mem_filter]
      exact ⟨List.mem_range.mpr hi, by simp [pageDiffers, hnone]⟩
    have hpos : 0 <
        ((List.range (min n1 n2)).filter (fun j => pageDiffers (diff j))).length :=
      List.length_pos.mpr (List.ne_nil_of_mem hmem)
    exact hpos

/-- Witness for C8's amended theorem: a crashing differ on outputs of 2 and
3 pages compares 2 pages and counts at least one difference. -/
theorem visual_compare_common_prefix_witness :
    (∀ i < min 2 3, (fun _ : ℕ => (none : Option ℕ)) i =
        (fun _ : ℕ => (none : Option ℕ)) i)
    ∧ (compareVisuallyCount (fun _ => none) 2 3).1 = min 2 3
    ∧ 1 ≤ (compareVisuallyCount (fun _ => none) 2 3).2 := by
  have h := visual_compare_common_prefix (fun _ => none) (fun _ => none) 2 3
    (fun i _ => rfl)
  exact ⟨fun i _ => rfl, h.1, h.2.2.2 0 (by decide) rfl⟩

/-- Claim C9: for a page with TAC above 200, the rich-black recommendation
is emitted exactly when the key channel exceeds 80 percent while at least
one other channel exceeds 20 percent; and whenever TAC exceeds 240, the
recommendation toward the ICC-profile remediation pipeline is emitted. -/
theorem rich_black_and_pipeline_recommendation (tac : ℚ) (s : ChannelSample)
    (h : 200 < tac) :
    ((∃ l, getTACRecommendation tac s = some l ∧ TACRec.pureBlack ∈ l) ↔
      (80 < s.k ∧ (20 < s.c ∨ 20 < s.m ∨ 20 < s.y)))
    ∧ (240 < tac →
        ∃ l, getTACRecommendation tac s = some l ∧ TACRec.convertProfile ∈ l) := by
  unfold getTACRecommendation
  rw [if_neg (not_le.mpr h)]
  split_ifs with hA hB hC hD <;> simp_all

/-- Witness for C9 at TAC 250 with channels (30, 0, 0, 90): the rich-black
condition holds and both recommendations are emitted. -/
theorem rich_black_recommendation_witness :
    ((200 : ℚ) < 250)
    ∧ ((∃ l, getTACRecommendation 250 ⟨30, 0, 0, 90⟩ = some l ∧
          TACRec.pureBlack ∈ l) ↔
        (80 < (90 : ℚ) ∧ (20 < (30 : ℚ) ∨ 20 < (0 : ℚ) ∨ 20 < (0 : ℚ)))) :=
  ⟨by norm_num,
    (rich_black_and_pipeline_recommendation 250 ⟨30, 0, 0, 90⟩ (by norm_num)).1⟩

/-- Claim C10: when the ink-coverage command fails (none) or yields no
parsable per-page line, getInkCoverage returns the empty list and measureTAC
returns maxTAC = 0, so validatePdf's TAC check passes and the limitTAC
verification reports success — an unmeasurable document is classified as
fully TAC-compliant instead of unknown. -/
theorem unmeasurable_counts_compliant :
    getInkCoverage none = []
    ∧ getInkCoverage (some []) = []
    ∧ tacCheckPassed (getInkCoverage none) = true
    ∧ measureTAC none = (0, 0)
    ∧ measureTAC (some []) = (0, 0)
    ∧ verificationOk (measureTAC none).1 240 = true := by
  refine ⟨rfl, rfl, by decide, rfl, rfl, by norm_num [verificationOk, measureTAC]⟩

end PdfPrint
